import Mathlib

/-!
Shallow embedding of the guest-side FFI boundary layer of
`packages/std/src/imports.rs` (CosmWasm std): the boundary call wrappers
around the host-provided import functions, together with the helpers they
use (packed dual-value decoding, sections codec).

Modelling conventions:
- Bytes are `Nat` (each byte a value below 256 by convention); byte buffers
  are `List Nat`.
- The host environment is external: each wrapper is parameterised by the
  host function it invokes, modelled as a pure function from the staged
  inputs to the raw numeric result (plus, where the wrapper dereferences a
  host-written Region, a map `mem : Nat → List Nat` from Region handles to
  the byte content the host wrote there, or a map to the UTF-8 string for
  error Regions).
- `build_region` stages a byte buffer for the host without changing its
  content, so staging is modelled as passing the bytes themselves to the
  host function.
- Rust `panic!` (the fatal, non-returning path) is a distinct outcome
  constructor, separate from ordinary typed errors.
-/

set_option autoImplicit false

namespace CosmwasmImports

/-- Outcome of a guest-side wrapper call: a success value, an ordinary typed
error returned to the caller, or a fatal panic (the Rust `panic!` path,
which never returns to the caller). -/
inductive GuestOutcome (α : Type) (ε : Type) where
  | ok : α → GuestOutcome α ε
  | err : ε → GuestOutcome α ε
  | panicked : String → GuestOutcome α ε
  deriving Repr, DecidableEq

/-- `true` exactly when the outcome is an ordinary typed error. -/
def GuestOutcome.isErr {α ε : Type} : GuestOutcome α ε → Bool
  | .err _ => true
  | _ => false

/-- `VerificationError` from `errors`, as used by the verify wrappers. -/
inductive VerificationError where
  | invalidHashFormat
  | invalidSignatureFormat
  | invalidPubkeyFormat
  | genericErr
  | unknownErr : Nat → VerificationError
  deriving Repr, DecidableEq

/-- `RecoverPubkeyError` from `errors`, as used by the recover wrapper. -/
inductive RecoverPubkeyError where
  | invalidHashFormat
  | invalidSignatureFormat
  | invalidRecoveryParam
  | unknownErr : Nat → RecoverPubkeyError
  deriving Repr, DecidableEq

/-- `StdError`: only the generic-error variant is constructed in this file
(`StdError::generic_err(msg)`). -/
inductive StdError where
  | genericErr : String → StdError
  deriving Repr, DecidableEq

/-- A validated human-readable address (`Addr`); `Addr.unchecked` wraps a
string without validation, as `Addr::unchecked` does. -/
inductive Addr where
  | unchecked : String → Addr
  deriving Repr, DecidableEq

/-- A canonical (binary) address (`CanonicalAddr`), built from owned bytes. -/
structure CanonicalAddr where
  bytes : List Nat
  deriving Repr, DecidableEq

/-- Modelled from the spec: `from_high_half` of the Packed Return Decoder
(`import_helpers`, not under src/): the high 32 bits of a 64-bit value as a
u32 (pure shift/mask). -/
def from_high_half (v : Nat) : Nat :=
  (v / 4294967296) % 4294967296

/-- Modelled from the spec: `from_low_half` of the Packed Return Decoder
(`import_helpers`, not under src/): the low 32 bits of a 64-bit value as a
u32 (pure mask). -/
def from_low_half (v : Nat) : Nat :=
  v % 4294967296

/-- Modelled from the spec: the 4-byte length field of the Sections
encoding (`sections`, not under src/). The spec fixes an
implementation-defined endianness; we take big-endian. The length is
truncated to 32 bits, as a u32 field. -/
def toBE4 (n : Nat) : List Nat :=
  [(n / 16777216) % 256, (n / 65536) % 256, (n / 256) % 256, n % 256]

/-- Modelled from the spec: reading a 4-byte big-endian length field. Any
other shape is malformed and reads as 0 (the protocol contract disallows
malformed input). -/
def fromBE4 (b : List Nat) : Nat :=
  match b with
  | [b3, b2, b1, b0] => ((b3 * 256 + b2) * 256 + b1) * 256 + b0
  | _ => 0

/-- Modelled from the spec: `encode_sections` (`sections`, not under src/):
deterministic concatenation of all slices in input order, each slice
immediately followed by its 4-byte length. -/
def encode_sections (sections : List (List Nat)) : List Nat :=
  sections.foldl (fun acc s => acc ++ s ++ toBE4 s.length) []

/-- Modelled from the spec: splitting the trailing section off a
sections-encoded buffer: the last 4 bytes hold the length of the section
that immediately precedes them. Returns (rest, last section). -/
def split_tail (data : List Nat) : List Nat × List Nat :=
  let n := data.length
  let len := fromBE4 (data.drop (n - 4))
  let rest := data.take (n - 4)
  (rest.take (rest.length - len), rest.drop (rest.length - len))

/-- Modelled from the spec: `decode_sections2` (`sections`, not under
src/): reads the trailing two length fields from the end of the buffer and
reconstructs the two original slices in original order. -/
def decode_sections2 (data : List Nat) : List Nat × List Nat :=
  let p := split_tail data
  let q := split_tail p.fst
  (q.snd, p.snd)

/-- The panic message of `ExternalStorage::set` on an empty value. -/
def storageSetPanicMsg : String :=
  "TL;DR: Value must not be empty in Storage::set but in most cases you can use Storage::remove instead. Long story: Getting empty values from storage is not well supported at the moment. Some of our internal interfaces cannot differentiate between a non-existent key and an empty value. Right now, you cannot rely on the behaviour of empty values. To protect you from trouble later on, we stop here. Sorry for the inconvenience! We highly welcome you to contribute to CosmWasm, making this more solid one way or the other."

/-- `ExternalStorage::get`: stages the key, invokes `db_read`, and maps the
returned handle: 0 means the key does not exist (`None`); a nonzero handle
is consumed as the value bytes (`consume_region`, modelled by `mem`). -/
def ExternalStorage.get (key : List Nat) (db_read : List Nat → Nat)
    (mem : Nat → List Nat) : Option (List Nat) :=
  let read := db_read key
  if read = 0 then
    none
  else
    some (mem read)

/-- `ExternalStorage::set`: panics on an empty value before any host
interaction; otherwise stages key and value and invokes `db_write`. The
second component records whether the host write function (`db_write`) was
invoked. The error type is `StdError` only to state that no typed error
is ever produced: the Rust signature returns `()` with no error channel. -/
def ExternalStorage.set (key value : List Nat) :
    GuestOutcome Unit StdError × Bool :=
  if value.isEmpty then
    (.panicked storageSetPanicMsg, false)
  else
    (.ok (), true)

/-- `ExternalIterator`: holds a host-assigned iteration id; the id is the
only guest-side state of the adapter. -/
structure ExternalIterator where
  iterator_id : Nat
  deriving Repr, DecidableEq

/-- `ExternalIterator::next` (`Iterator for ExternalIterator`): invokes
`db_next` with the iterator id, consumes the returned Region into bytes,
splits them via `decode_sections2` into a key and a value, and yields the
pair unless the key is empty (the end-of-sequence sentinel). The host is
modelled as `db_next : Nat → Nat → List Nat`, mapping (iterator id, host
cursor position) to the bytes of the Region it returns; `call` is the
cursor position of this invocation. The second component records that
`db_next` was invoked during this call (it is invoked unconditionally:
the adapter keeps no exhausted flag). -/
def ExternalIterator.next (it : ExternalIterator)
    (db_next : Nat → Nat → List Nat) (call : Nat) :
    Option (List Nat × List Nat) × Bool :=
  let kv := db_next it.iterator_id call
  let p := decode_sections2 kv
  (if p.fst.length = 0 then none else some p, true)

/-- Driving the iterator: repeatedly calling `next` (at successive host
cursor positions) and collecting the yielded pairs until `next` reports
`none`, with `fuel` bounding the number of calls. -/
def iterCollect (it : ExternalIterator) (db_next : Nat → Nat → List Nat) :
    Nat → Nat → List (List Nat × List Nat)
  | _, 0 => []
  | call, fuel + 1 =>
    match (ExternalIterator.next it db_next call).fst with
    | none => []
    | some kv => kv :: iterCollect it db_next (call + 1) fuel

/-- `ExternalApi::addr_validate`: rejects inputs longer than 256 bytes
locally; otherwise stages the input and invokes the `addr_validate` host
function. A nonzero result is an error-Region handle whose string content
(`consume_string_region_written_by_vm`, modelled by `vmErr`) is embedded in
the returned error message; result 0 yields the input itself, wrapped
unchecked. The second component records whether the host was invoked. -/
def ExternalApi.addr_validate (input : String) (host : String → Nat)
    (vmErr : Nat → String) : GuestOutcome Addr StdError × Bool :=
  if input.utf8ByteSize > 256 then
    (.err (.genericErr "input too long for addr_validate"), false)
  else
    let result := host input
    if result ≠ 0 then
      (.err (.genericErr ("addr_validate errored: " ++ vmErr result)), true)
    else
      (.ok (.unchecked input), true)

/-- `ExternalApi::addr_canonicalize`: same local length cap as
`addr_validate`; on success the canonical bytes are consumed from the
pre-allocated 64-byte output Region the host wrote (`consume_region`,
modelled by `canonOut`). -/
def ExternalApi.addr_canonicalize (input : String) (host : String → Nat)
    (vmErr : Nat → String) (canonOut : List Nat) :
    GuestOutcome CanonicalAddr StdError × Bool :=
  if input.utf8ByteSize > 256 then
    (.err (.genericErr "input too long for addr_canonicalize"), false)
  else
    let result := host input
    if result ≠ 0 then
      (.err (.genericErr ("addr_canonicalize errored: " ++ vmErr result)), true)
    else
      (.ok (CanonicalAddr.mk canonOut), true)

/-- `ExternalApi::secp256k1_verify`: stages the three buffers, invokes the
`secp256k1_verify` host function, and maps its u32 result: 0 success, 1
failure, 2 a fatal VM bug, 3/4/5/10 typed errors, anything else unknown. -/
def ExternalApi.secp256k1_verify (message_hash signature public_key : List Nat)
    (host : List Nat → List Nat → List Nat → Nat) :
    GuestOutcome Bool VerificationError :=
  let result := host message_hash signature public_key
  if result = 0 then .ok true
  else if result = 1 then .ok false
  else if result = 2 then .panicked "MessageTooLong must not happen. This is a bug in the VM."
  else if result = 3 then .err .invalidHashFormat
  else if result = 4 then .err .invalidSignatureFormat
  else if result = 5 then .err .invalidPubkeyFormat
  else if result = 10 then .err .genericErr
  else .err (.unknownErr result)

/-- `ExternalApi::secp256k1_recover_pubkey`: stages hash and signature,
invokes the host function, splits the u64 result into the high-half error
code and the low-half Region handle, and on code 0 consumes the handle as
the recovered public key (`consume_region` modelled by `mem`); codes 3/4/6
are typed errors, 2 is a fatal VM bug, anything else unknown. -/
def ExternalApi.secp256k1_recover_pubkey (message_hash signature : List Nat)
    (recover_param : Nat) (host : List Nat → List Nat → Nat → Nat)
    (mem : Nat → List Nat) : GuestOutcome (List Nat) RecoverPubkeyError :=
  let result := host message_hash signature recover_param
  let error_code := from_high_half result
  let pubkey_ptr := from_low_half result
  if error_code = 0 then .ok (mem pubkey_ptr)
  else if error_code = 2 then .panicked "MessageTooLong must not happen. This is a bug in the VM."
  else if error_code = 3 then .err .invalidHashFormat
  else if error_code = 4 then .err .invalidSignatureFormat
  else if error_code = 6 then .err .invalidRecoveryParam
  else .err (.unknownErr error_code)

/-- `ExternalApi::ed25519_verify`: stages the three buffers, invokes the
`ed25519_verify` host function, and maps its u32 result: 0 success, 1
failure, 2 and 3 fatal VM bugs, 4/5/10 typed errors, anything else
unknown. -/
def ExternalApi.ed25519_verify (message signature public_key : List Nat)
    (host : List Nat → List Nat → List Nat → Nat) :
    GuestOutcome Bool VerificationError :=
  let result := host message signature public_key
  if result = 0 then .ok true
  else if result = 1 then .ok false
  else if result = 2 then .panicked "Error code 2 unused since CosmWasm 0.15. This is a bug in the VM."
  else if result = 3 then .panicked "InvalidHashFormat must not happen. This is a bug in the VM."
  else if result = 4 then .err .invalidSignatureFormat
  else if result = 5 then .err .invalidPubkeyFormat
  else if result = 10 then .err .genericErr
  else .err (.unknownErr result)

/-- `ExternalApi::ed25519_batch_verify`: flattens each of the three
argument lists via `encode_sections`, stages the three encoded buffers,
invokes the `ed25519_batch_verify` host function, and maps its u32 result
with the same table as `ed25519_verify`. -/
def ExternalApi.ed25519_batch_verify
    (messages signatures public_keys : List (List Nat))
    (host : List Nat → List Nat → List Nat → Nat) :
    GuestOutcome Bool VerificationError :=
  let result := host (encode_sections messages) (encode_sections signatures)
    (encode_sections public_keys)
  if result = 0 then .ok true
  else if result = 1 then .ok false
  else if result = 2 then .panicked "Error code 2 unused since CosmWasm 0.15. This is a bug in the VM."
  else if result = 3 then .panicked "InvalidHashFormat must not happen. This is a bug in the VM."
  else if result = 4 then .err .invalidSignatureFormat
  else if result = 5 then .err .invalidPubkeyFormat
  else if result = 10 then .err .genericErr
  else .err (.unknownErr result)

/-- `ExternalApi::check_gas`: invokes the `check_gas` host function (whose
u64 result is modelled as the parameter); 0 is mapped to a generic error,
any other value is returned as the remaining gas. -/
def ExternalApi.check_gas (result : Nat) : GuestOutcome Nat StdError :=
  if result = 0 then
    .err (.genericErr "check_gas error")
  else
    .ok result

/-- A string contains another as a contiguous substring (on the underlying
character lists). -/
def strContains (s sub : String) : Prop :=
  List.IsInfix sub.data s.data

/-! ### Helper lemmas -/

theorem strContains_append (pre sub : String) : strContains (pre ++ sub) sub :=
  ⟨pre.data, [], by simp⟩

theorem from_high_half_pack (code handle : Nat) (hc : code < 4294967296)
    (hh : handle < 4294967296) :
    from_high_half (code * 4294967296 + handle) = code := by
  unfold from_high_half
  omega

theorem from_low_half_pack (code handle : Nat) (hh : handle < 4294967296) :
    from_low_half (code * 4294967296 + handle) = handle := by
  unfold from_low_half
  omega

/-- Driving the iterator when the host reports pairs with nonempty keys at
cursor positions `start, …, start + m - 1` and an empty key at position
`start + m`: the collected pairs are exactly the decoded pairs of those
first `m` positions, in order. -/
theorem iterCollect_spec (it : ExternalIterator)
    (db_next : Nat → Nat → List Nat) :
    ∀ (m start fuel : Nat), m ≤ fuel →
    (∀ i, i < m → (decode_sections2 (db_next it.iterator_id (start + i))).fst ≠ []) →
    (decode_sections2 (db_next it.iterator_id (start + m))).fst = [] →
    iterCollect it db_next start fuel
      = (List.range m).map
          (fun i => decode_sections2 (db_next it.iterator_id (start + i))) := by
  intro m
  induction m with
  | zero =>
    intro start fuel _ _ hm
    cases fuel with
    | zero => rfl
    | succ f =>
      rw [Nat.add_zero] at hm
      simp [iterCollect, ExternalIterator.next, hm]
  | succ k ih =>
    intro start fuel hmf hne hm
    cases fuel with
    | zero => omega
    | succ f =>
      have h0 : (decode_sections2 (db_next it.iterator_id start)).fst ≠ [] := by
        have := hne 0 (by omega)
        simpa using this
      have hnext : (ExternalIterator.next it db_next start).fst
          = some (decode_sections2 (db_next it.iterator_id start)) := by
        simp [ExternalIterator.next, List.length_eq_zero, h0]
      have hne' : ∀ i, i < k →
          (decode_sections2 (db_next it.iterator_id (start + 1 + i))).fst ≠ [] := by
        intro i hi
        have e : start + 1 + i = start + (i + 1) := by omega
        rw [e]
        exact hne (i + 1) (by omega)
      have hm' : (decode_sections2 (db_next it.iterator_id (start + 1 + k))).fst = [] := by
        have e : start + 1 + k = start + (k + 1) := by omega
        rw [e]
        exact hm
      have hrec := ih (start + 1) f (by omega) hne' hm'
      have hfun : ∀ i ∈ List.range k,
          decode_sections2 (db_next it.iterator_id (start + 1 + i))
            = decode_sections2 (db_next it.iterator_id (start + (i + 1))) := by
        intro i _
        have e : start + 1 + i = start + (i + 1) := by omega
        rw [e]
      simp only [iterCollect, hnext]
      rw [hrec, List.map_congr_left hfun, List.range_succ_eq_map, List.map_cons,
        List.map_map]
      simp [Function.comp, Nat.succ_eq_add_one]

/-! ### Claim theorems -/

/-- Claim C1, counterexample: storage set with key `[0]` and the empty value
is rejected before any host interaction (the host write function is not
invoked), but the violation surfaces as a panic, not as an ordinary typed
error returned to the caller — refuting the claim as stated. -/
theorem claim_C1_counterexample :
    (ExternalStorage.set [0] []).snd = false
    ∧ (ExternalStorage.set [0] []).fst.isErr = false
    ∧ (ExternalStorage.set [0] []).fst = .panicked storageSetPanicMsg :=
  ⟨rfl, rfl, rfl⟩

/-- Claim C1, amended: for every key and every empty value, storage set
rejects the call before any host interaction (the host write function is
never invoked), and the violation surfaces as a panic (a fatal
contract-violation), never as an ordinary typed error to the caller. -/
theorem claim_C1_set_empty_value_panics_before_host (key value : List Nat)
    (h : value = []) :
    ExternalStorage.set key value = (.panicked storageSetPanicMsg, false)
    ∧ ∀ e, (ExternalStorage.set key value).fst ≠ .err e := by
  subst h
  refine ⟨rfl, ?_⟩
  intro e he
  simp [ExternalStorage.set] at he

/-- Claim C1, witness at a concrete input. -/
theorem claim_C1_witness :
    ExternalStorage.set [3] [] = (.panicked storageSetPanicMsg, false) :=
  (claim_C1_set_empty_value_panics_before_host [3] [] rfl).1

/-- Claim C2: for every host return code of the secp256k1 verify call:
0 yields Ok true, 1 yields Ok false, 3 the invalid-hash-format error,
4 the invalid-signature-format error, 5 the invalid-pubkey-format error,
10 the generic verification error; 2 panics (a fatal host-contract
violation) and never returns an Err; every other code yields the
unknown-error variant carrying that exact code. -/
theorem claim_C2_secp256k1_verify_code_mapping
    (message_hash signature public_key : List Nat)
    (host : List Nat → List Nat → List Nat → Nat) (r : Nat)
    (hr : host message_hash signature public_key = r) :
    (r = 0 → ExternalApi.secp256k1_verify message_hash signature public_key host
        = .ok true)
    ∧ (r = 1 → ExternalApi.secp256k1_verify message_hash signature public_key host
        = .ok false)
    ∧ (r = 3 → ExternalApi.secp256k1_verify message_hash signature public_key host
        = .err .invalidHashFormat)
    ∧ (r = 4 → ExternalApi.secp256k1_verify message_hash signature public_key host
        = .err .invalidSignatureFormat)
    ∧ (r = 5 → ExternalApi.secp256k1_verify message_hash signature public_key host
        = .err .invalidPubkeyFormat)
    ∧ (r = 10 → ExternalApi.secp256k1_verify message_hash signature public_key host
        = .err .genericErr)
    ∧ (r = 2 →
        ExternalApi.secp256k1_verify message_hash signature public_key host
          = .panicked "MessageTooLong must not happen. This is a bug in the VM."
        ∧ ∀ e, ExternalApi.secp256k1_verify message_hash signature public_key host
            ≠ .err e)
    ∧ (r ∉ ([0, 1, 2, 3, 4, 5, 10] : List Nat) →
        ExternalApi.secp256k1_verify message_hash signature public_key host
          = .err (.unknownErr r)) := by
  refine ⟨?_, ?_, ?_, ?_, ?_, ?_, ?_, ?_⟩
  · intro h; subst h; simp [ExternalApi.secp256k1_verify, hr]
  · intro h; subst h; simp [ExternalApi.secp256k1_verify, hr]
  · intro h; subst h; simp [ExternalApi.secp256k1_verify, hr]
  · intro h; subst h; simp [ExternalApi.secp256k1_verify, hr]
  · intro h; subst h; simp [ExternalApi.secp256k1_verify, hr]
  · intro h; subst h; simp [ExternalApi.secp256k1_verify, hr]
  · intro h
    subst h
    refine ⟨by simp [ExternalApi.secp256k1_verify, hr], ?_⟩
    intro e he
    simp [ExternalApi.secp256k1_verify, hr] at he
  · intro h
    simp only [List.mem_cons, List.mem_singleton, not_or] at h
    obtain ⟨h0, h1, h2, h3, h4, h5, h10⟩ := h
    simp [ExternalApi.secp256k1_verify, hr, h0, h1, h2, h3, h4, h5, h10]

/-- Claim C2, witness at concrete inputs. -/
theorem claim_C2_witness :
    ExternalApi.secp256k1_verify [1] [2] [3] (fun _ _ _ => 7)
      = .err (.unknownErr 7) :=
  (claim_C2_secp256k1_verify_code_mapping [1] [2] [3] (fun _ _ _ => 7) 7
    rfl).2.2.2.2.2.2.2 (by decide)

/-- Claim C8: for every key, storage get returns None exactly when the host
read call returns handle 0, and otherwise returns Some of the bytes
consumed from the nonzero Region handle. -/
theorem claim_C8_storage_get_none_iff_zero_handle (key : List Nat)
    (db_read : List Nat → Nat) (mem : Nat → List Nat) :
    (ExternalStorage.get key db_read mem = none ↔ db_read key = 0)
    ∧ (db_read key ≠ 0 →
        ExternalStorage.get key db_read mem = some (mem (db_read key))) := by
  unfold ExternalStorage.get
  constructor
  · by_cases h : db_read key = 0 <;> simp [h]
  · intro h
    simp [h]

/-- Claim C8, witness at a concrete input. -/
theorem claim_C8_witness :
    ExternalStorage.get [1] (fun _ => 5) (fun h => [h, h]) = some [5, 5] :=
  (claim_C8_storage_get_none_iff_zero_handle [1] (fun _ => 5)
    (fun h => [h, h])).2 (by decide)

/-- Claim C9: the check-gas wrapper returns a generic error exactly when
the host call returns 0, and otherwise returns Ok of exactly the value the
host returned as the remaining gas. -/
theorem claim_C9_check_gas_zero_is_error (result : Nat) :
    (ExternalApi.check_gas result = .err (.genericErr "check_gas error")
      ↔ result = 0)
    ∧ (result ≠ 0 → ExternalApi.check_gas result = .ok result) := by
  unfold ExternalApi.check_gas
  constructor
  · by_cases h : result = 0 <;> simp [h]
  · intro h
    simp [h]

/-- Claim C9, witness at a concrete input. -/
theorem claim_C9_witness : ExternalApi.check_gas 5 = .ok 5 :=
  (claim_C9_check_gas_zero_is_error 5).2 (by decide)

/-- Claim C3: for every 64-bit value returned by the secp256k1
pubkey-recovery host call, the wrapper splits it into the high 32 bits as
the error code and the low 32 bits as the Region handle; code 0 returns
the bytes consumed from that handle as the recovered public key, codes
3/4/6 map to the typed invalid-hash, invalid-signature and
invalid-recovery-param errors, code 2 is fatal (panics), and any other
code yields the unknown-error variant carrying that code. -/
theorem claim_C3_recover_pubkey_packed_mapping
    (message_hash signature : List Nat) (recover_param : Nat)
    (host : List Nat → List Nat → Nat → Nat) (mem : Nat → List Nat)
    (code handle : Nat) (hc : code < 4294967296) (hh : handle < 4294967296)
    (hres : host message_hash signature recover_param
      = code * 4294967296 + handle) :
    (code = 0 →
      ExternalApi.secp256k1_recover_pubkey message_hash signature recover_param
        host mem = .ok (mem handle))
    ∧ (code = 3 →
      ExternalApi.secp256k1_recover_pubkey message_hash signature recover_param
        host mem = .err .invalidHashFormat)
    ∧ (code = 4 →
      ExternalApi.secp256k1_recover_pubkey message_hash signature recover_param
        host mem = .err .invalidSignatureFormat)
    ∧ (code = 6 →
      ExternalApi.secp256k1_recover_pubkey message_hash signature recover_param
        host mem = .err .invalidRecoveryParam)
    ∧ (code = 2 →
      ExternalApi.secp256k1_recover_pubkey message_hash signature recover_param
          host mem
        = .panicked "MessageTooLong must not happen. This is a bug in the VM."
      ∧ ∀ e, ExternalApi.secp256k1_recover_pubkey message_hash signature
          recover_param host mem ≠ .err e)
    ∧ (code ∉ ([0, 2, 3, 4, 6] : List Nat) →
      ExternalApi.secp256k1_recover_pubkey message_hash signature recover_param
        host mem = .err (.unknownErr code)) := by
  have hhi : from_high_half (host message_hash signature recover_param) = code := by
    rw [hres]
    exact from_high_half_pack code handle hc hh
  have hlo : from_low_half (host message_hash signature recover_param) = handle := by
    rw [hres]
    exact from_low_half_pack code handle hh
  refine ⟨?_, ?_, ?_, ?_, ?_, ?_⟩
  · intro h
    simp [ExternalApi.secp256k1_recover_pubkey, hhi, hlo, h]
  · intro h
    simp [ExternalApi.secp256k1_recover_pubkey, hhi, hlo, h]
  · intro h
    simp [ExternalApi.secp256k1_recover_pubkey, hhi, hlo, h]
  · intro h
    simp [ExternalApi.secp256k1_recover_pubkey, hhi, hlo, h]
  · intro h
    refine ⟨by simp [ExternalApi.secp256k1_recover_pubkey, hhi, hlo, h], ?_⟩
    intro e he
    simp [ExternalApi.secp256k1_recover_pubkey, hhi, hlo, h] at he
  · intro h
    simp only [List.mem_cons, List.mem_singleton, not_or] at h
    obtain ⟨h0, h2, h3, h4, h6⟩ := h
    simp [ExternalApi.secp256k1_recover_pubkey, hhi, hlo, h0, h2, h3, h4, h6]

/-- Claim C3, witness at concrete inputs: host result `7` packs code 0 and
handle 7, so the wrapper returns the bytes at handle 7. -/
theorem claim_C3_witness :
    ExternalApi.secp256k1_recover_pubkey [1] [2] 0 (fun _ _ _ => 7)
      (fun h => [h, h]) = .ok [7, 7] :=
  (claim_C3_recover_pubkey_packed_mapping [1] [2] 0 (fun _ _ _ => 7)
    (fun h => [h, h]) 0 7 (by decide) (by decide) (by decide)).1 rfl

/-- Claim C4: for every host return code of the ed25519 verify and ed25519
batch-verify calls: 0 yields Ok true, 1 yields Ok false, codes 4/5/10 map
to the typed invalid-signature, invalid-pubkey and generic errors, codes 2
and 3 are fatal (panics, never an Err), any other code yields the
unknown-error variant carrying the code; and the batch variant first
flattens each of its three argument lists via the sections encoding before
calling the host. -/
theorem claim_C4_ed25519_code_mapping
    (messages signatures public_keys : List (List Nat)) (m s p : List Nat)
    (host : List Nat → List Nat → List Nat → Nat) (r : Nat)
    (hr : host m s p = r) :
    (ExternalApi.ed25519_batch_verify messages signatures public_keys host
      = ExternalApi.ed25519_verify (encode_sections messages)
          (encode_sections signatures) (encode_sections public_keys) host)
    ∧ (r = 0 → ExternalApi.ed25519_verify m s p host = .ok true)
    ∧ (r = 1 → ExternalApi.ed25519_verify m s p host = .ok false)
    ∧ (r = 4 → ExternalApi.ed25519_verify m s p host
        = .err .invalidSignatureFormat)
    ∧ (r = 5 → ExternalApi.ed25519_verify m s p host
        = .err .invalidPubkeyFormat)
    ∧ (r = 10 → ExternalApi.ed25519_verify m s p host = .err .genericErr)
    ∧ (r = 2 →
        ExternalApi.ed25519_verify m s p host
          = .panicked "Error code 2 unused since CosmWasm 0.15. This is a bug in the VM."
        ∧ ∀ e, ExternalApi.ed25519_verify m s p host ≠ .err e)
    ∧ (r = 3 →
        ExternalApi.ed25519_verify m s p host
          = .panicked "InvalidHashFormat must not happen. This is a bug in the VM."
        ∧ ∀ e, ExternalApi.ed25519_verify m s p host ≠ .err e)
    ∧ (r ∉ ([0, 1, 2, 3, 4, 5, 10] : List Nat) →
        ExternalApi.ed25519_verify m s p host = .err (.unknownErr r)) := by
  refine ⟨rfl, ?_, ?_, ?_, ?_, ?_, ?_, ?_, ?_⟩
  · intro h; subst h; simp [ExternalApi.ed25519_verify, hr]
  · intro h; subst h; simp [ExternalApi.ed25519_verify, hr]
  · intro h; subst h; simp [ExternalApi.ed25519_verify, hr]
  · intro h; subst h; simp [ExternalApi.ed25519_verify, hr]
  · intro h; subst h; simp [ExternalApi.ed25519_verify, hr]
  · intro h
    subst h
    refine ⟨by simp [ExternalApi.ed25519_verify, hr], ?_⟩
    intro e he
    simp [ExternalApi.ed25519_verify, hr] at he
  · intro h
    subst h
    refine ⟨by simp [ExternalApi.ed25519_verify, hr], ?_⟩
    intro e he
    simp [ExternalApi.ed25519_verify, hr] at he
  · intro h
    simp only [List.mem_cons, List.mem_singleton, not_or] at h
    obtain ⟨h0, h1, h2, h3, h4, h5, h10⟩ := h
    simp [ExternalApi.ed25519_verify, hr, h0, h1, h2, h3, h4, h5, h10]

/-- Claim C4, witness at concrete inputs. -/
theorem claim_C4_witness :
    ExternalApi.ed25519_batch_verify [[1]] [[2]] [[3]] (fun _ _ _ => 0)
      = ExternalApi.ed25519_verify (encode_sections [[1]])
          (encode_sections [[2]]) (encode_sections [[3]]) (fun _ _ _ => 0)
    ∧ ExternalApi.ed25519_verify [1] [2] [3] (fun _ _ _ => 0) = .ok true :=
  ⟨(claim_C4_ed25519_code_mapping [[1]] [[2]] [[3]] [1] [2] [3]
      (fun _ _ _ => 0) 0 rfl).1,
   (claim_C4_ed25519_code_mapping [[1]] [[2]] [[3]] [1] [2] [3]
      (fun _ _ _ => 0) 0 rfl).2.1 rfl⟩

/-- Claim C5: inputs to address validation or canonicalization longer than
256 bytes are rejected locally without invoking the host; for inputs
within the cap, a nonzero host result yields an error whose message
contains the string extracted from the host-written error Region. -/
theorem claim_C5_addr_length_cap_and_host_error
    (input : String) (host : String → Nat) (vmErr : Nat → String)
    (canonOut : List Nat) :
    (256 < input.utf8ByteSize →
      ExternalApi.addr_validate input host vmErr
        = (.err (.genericErr "input too long for addr_validate"), false)
      ∧ ExternalApi.addr_canonicalize input host vmErr canonOut
        = (.err (.genericErr "input too long for addr_canonicalize"), false))
    ∧ (input.utf8ByteSize ≤ 256 → host input ≠ 0 →
      ExternalApi.addr_validate input host vmErr
        = (.err (.genericErr ("addr_validate errored: " ++ vmErr (host input))),
            true)
      ∧ strContains ("addr_validate errored: " ++ vmErr (host input))
          (vmErr (host input))
      ∧ ExternalApi.addr_canonicalize input host vmErr canonOut
        = (.err (.genericErr ("addr_canonicalize errored: " ++ vmErr (host input))),
            true)
      ∧ strContains ("addr_canonicalize errored: " ++ vmErr (host input))
          (vmErr (host input))) := by
  constructor
  · intro h
    constructor
    · simp [ExternalApi.addr_validate, h]
    · simp [ExternalApi.addr_canonicalize, h]
  · intro h1 h2
    have hng : ¬(input.utf8ByteSize > 256) := by omega
    refine ⟨?_, strContains_append _ _, ?_, strContains_append _ _⟩
    · simp [ExternalApi.addr_validate, hng, h2]
    · simp [ExternalApi.addr_canonicalize, hng, h2]

/-- Claim C5, witness at concrete inputs. -/
theorem claim_C5_witness :
    ExternalApi.addr_validate "abc" (fun _ => 5) (fun _ => "bad")
      = (.err (.genericErr "addr_validate errored: bad"), true) :=
  ((claim_C5_addr_length_cap_and_host_error "abc" (fun _ => 5) (fun _ => "bad")
    []).2 (by decide) (by decide)).1

/-- Claim C10: for every input accepted by address validation (at most 256
bytes, host result 0), the returned validated address is built from the
caller input string verbatim, and the success value does not depend on any
data written by the host. -/
theorem claim_C10_validate_success_is_input_verbatim
    (input : String) (host : String → Nat) (vmErr vmErr2 : Nat → String)
    (hlen : input.utf8ByteSize ≤ 256) (hres : host input = 0) :
    ExternalApi.addr_validate input host vmErr = (.ok (.unchecked input), true)
    ∧ ExternalApi.addr_validate input host vmErr
        = ExternalApi.addr_validate input host vmErr2 := by
  have hng : ¬(input.utf8ByteSize > 256) := by omega
  constructor
  · simp [ExternalApi.addr_validate, hng, hres]
  · simp [ExternalApi.addr_validate, hng, hres]

/-- Claim C10, witness at a concrete input. -/
theorem claim_C10_witness :
    ExternalApi.addr_validate "abc" (fun _ => 0) (fun _ => "ignored")
      = (.ok (.unchecked "abc"), true) :=
  (claim_C10_validate_success_is_input_verbatim "abc" (fun _ => 0)
    (fun _ => "ignored") (fun _ => "other") (by decide) rfl).1

/-- Claim C6: for every N ≥ 1, if the host next-pair call returns
non-empty-key pairs on the first N−1 calls (cursor positions 0..N−2) and a
pair with an empty key on the Nth call (position N−1), then iterating the
adapter yields exactly those N−1 decoded key/value pairs in order, and the
Nth fetch reports end of sequence (none). -/
theorem claim_C6_iterator_yields_then_terminates
    (it : ExternalIterator) (db_next : Nat → Nat → List Nat) (N : Nat)
    (hN : 1 ≤ N)
    (hne : ∀ i, i < N - 1 →
      (decode_sections2 (db_next it.iterator_id i)).fst ≠ [])
    (hend : (decode_sections2 (db_next it.iterator_id (N - 1))).fst = []) :
    (∀ fuel, N - 1 ≤ fuel →
      iterCollect it db_next 0 fuel
        = (List.range (N - 1)).map
            (fun i => decode_sections2 (db_next it.iterator_id i)))
    ∧ (ExternalIterator.next it db_next (N - 1)).fst = none := by
  constructor
  · intro fuel hf
    have h1 : ∀ i, i < N - 1 →
        (decode_sections2 (db_next it.iterator_id (0 + i))).fst ≠ [] := by
      intro i hi
      simpa using hne i hi
    have h2 : (decode_sections2 (db_next it.iterator_id (0 + (N - 1)))).fst
        = [] := by
      simpa using hend
    have := iterCollect_spec it db_next (N - 1) 0 fuel hf h1 h2
    simpa using this
  · simp [ExternalIterator.next, hend]

/-- The mock host of the C6 witness: a pair with key [1] and value [2] in
sections2 encoding at cursor position 0, and an empty-key pair afterwards. -/
def c6Host : Nat → Nat → List Nat :=
  fun _ call =>
    if call = 0 then [1, 0, 0, 0, 1, 2, 0, 0, 0, 1]
    else [0, 0, 0, 0, 5, 0, 0, 0, 1]

/-- Claim C6, witness at concrete inputs (N = 2). -/
theorem claim_C6_witness :
    iterCollect ⟨7⟩ c6Host 0 2 = [([1], [2])]
    ∧ (ExternalIterator.next ⟨7⟩ c6Host 1).fst = none := by
  have h := claim_C6_iterator_yields_then_terminates ⟨7⟩ c6Host 2 (by decide)
    (by
      intro i hi
      have hi0 : i = 0 := by omega
      subst hi0
      decide)
    (by decide)
  refine ⟨?_, h.2⟩
  rw [h.1 2 (by decide)]
  decide

/-- The mock host of the C7 counterexample: an empty-key pair in sections2
encoding at cursor position 0, and a pair with key [1] and value [2]
afterwards. -/
def c7Host : Nat → Nat → List Nat :=
  fun _ call =>
    if call = 0 then [0, 0, 0, 0, 5, 0, 0, 0, 1]
    else [1, 0, 0, 0, 1, 2, 0, 0, 0, 1]

/-- Claim C7, counterexample: after the fetch at cursor position 0 returns
an empty key (end of sequence), a subsequent call to next still performs
another host round-trip and still yields another pair when the host
returns one — the adapter holds no terminal Exhausted state, refuting the
claim as stated. -/
theorem claim_C7_counterexample :
    (ExternalIterator.next ⟨7⟩ c7Host 0).fst = none
    ∧ (ExternalIterator.next ⟨7⟩ c7Host 1).snd = true
    ∧ (ExternalIterator.next ⟨7⟩ c7Host 1).fst = some ([1], [2]) :=
  ⟨by decide, by decide, by decide⟩

/-- Claim C7, amended: the adapter keeps no guest-side exhausted state —
every call to next performs another host round-trip — and once a fetch
returns an empty key, no further pair is yielded only as long as the host
keeps returning empty-key pairs: exhaustion is maintained by the host-side
cursor, and callers following the iterator protocol stop calling next
after none. -/
theorem claim_C7_no_guest_exhausted_state
    (it : ExternalIterator) (db_next : Nat → Nat → List Nat) (call : Nat) :
    (ExternalIterator.next it db_next call).snd = true
    ∧ ((∀ j, call ≤ j →
          (decode_sections2 (db_next it.iterator_id j)).fst = []) →
        ∀ j, call ≤ j → (ExternalIterator.next it db_next j).fst = none) := by
  constructor
  · rfl
  · intro h j hj
    simp [ExternalIterator.next, h j hj]

/-- Claim C7, witness at concrete inputs. -/
theorem claim_C7_witness :
    (ExternalIterator.next ⟨7⟩ (fun _ _ => [0, 0, 0, 0, 0, 0, 0, 0]) 0).snd
      = true
    ∧ (ExternalIterator.next ⟨7⟩ (fun _ _ => [0, 0, 0, 0, 0, 0, 0, 0]) 1).fst
      = none := by
  have h := claim_C7_no_guest_exhausted_state ⟨7⟩
    (fun _ _ => [0, 0, 0, 0, 0, 0, 0, 0]) 0
  exact ⟨h.1, h.2 (fun j _ => rfl) 1 (by decide)⟩

end CosmwasmImports

